import Mathlib

/-!
Shallow embedding of the core logic of the `cloudtrail-mcp` TypeScript
repository, together with theorems settling the specification claims.

Modelling conventions:
* JavaScript numbers are modelled as exact integers (`Int`/`Nat`); the
  quantities involved (token counts, millisecond durations, page sizes)
  are integral in the source.
* Instants are integers of milliseconds since the epoch (`Date#getTime`).
* The ambient current time (`new Date()`) and the JS engine's absolute
  date parser (`new Date(string)`) are injected as explicit parameters,
  as are the external AWS collaborator responses.
* `throw` is modelled with `Except String`; a thrown error means no
  collaborator request value is produced.
* Optional / possibly-`undefined` values are `Option`; JS string
  truthiness (`undefined` and `""` are falsy) is modelled by `truthy`.
-/

/-! ### `src/utils/token-limiter.ts` -/

/-- Result record of `checkTokenLimit` (interface `TokenCheckResult`). -/
structure TokenCheckResult where
  allowed : Bool
  tokens : Nat
  error : Option String
deriving DecidableEq, Repr

/-- `checkTokenLimit(result, maxTokens, breakRule)` from
`src/utils/token-limiter.ts`.  The tiktoken-backed `calculateTokens` is an
external collaborator and is injected as a parameter; `result` is taken to
be a string (the `typeof result === 'string'` branch of the source). -/
def checkTokenLimit (calculateTokens : String → Nat) (result : String)
    (maxTokens : Int) (breakRule : Bool) : TokenCheckResult :=
  if breakRule then
    { allowed := true, tokens := 0, error := none }
  else
    let tokens := calculateTokens result
    if (tokens : Int) > maxTokens then
      { allowed := false, tokens := tokens,
        error := some ("Token limit exceeded: result contains " ++ toString tokens
          ++ " tokens (limit: " ++ toString maxTokens ++ "). "
          ++ "To reduce output size, try: reduce maxResults, narrow the time range (startTime/endTime), "
          ++ "add more specific filters (attributeKey/attributeValue), add a LIMIT clause to SQL queries, "
          ++ "or set break_token_rule: true to bypass this check.") }
    else
      { allowed := true, tokens := tokens, error := none }

/-! ### `src/types/cloudtrail.ts` — `parseTimeInput`

The source trims and lower-cases the input, returns `now` for `"now"`,
matches the regex `^(\d+)\s+(second|minute|hour|day|week|month)s?\s+ago$`,
and otherwise falls back to the JS engine's absolute date parsing
(`new Date(input)`, injected here as `dateParse`).  The regex machinery
is modelled character-by-character on `List Char`.  Because none of the
alternative unit words is a prefix of another, and the character classes
`\d`, `\s` and the unit letters are pairwise disjoint, the greedy
backtracking-free matcher below accepts exactly the strings the regex
accepts. -/

/-- The regex character class `\s` (and the `trim` whitespace set):
space, tab, line feed, vertical tab, form feed, carriage return,
no-break space, BOM.  (Rarer Unicode space separators are omitted;
no claim depends on them.) -/
def isRegexSpace (c : Char) : Bool :=
  c.toNat = 32 || c.toNat = 9 || c.toNat = 10 || c.toNat = 11 ||
  c.toNat = 12 || c.toNat = 13 || c.toNat = 160 || c.toNat = 65279

/-- The regex character class `\d`, i.e. `[0-9]`. -/
def isDigitC (c : Char) : Bool :=
  48 ≤ c.toNat && c.toNat ≤ 57

/-- ASCII case folding of one character, as `String#toLowerCase` acts on
the ASCII inputs relevant here. -/
def jsCharToLower (c : Char) : Char :=
  if 65 ≤ c.toNat && c.toNat ≤ 90 then Char.ofNat (c.toNat + 32) else c

/-- `String#toLowerCase` on the character list. -/
def jsToLower (cs : List Char) : List Char :=
  cs.map jsCharToLower

/-- `String#trim` on the character list: drop leading and trailing
whitespace. -/
def jsTrim (cs : List Char) : List Char :=
  ((cs.dropWhile isRegexSpace).reverse.dropWhile isRegexSpace).reverse

/-- `parseInt(digits, 10)` on a list of decimal digit characters
(exact integer semantics). -/
def digitsToNat (ds : List Char) : Nat :=
  ds.foldl (fun acc c => acc * 10 + (c.toNat - 48)) 0

/-- The unit alternatives of the relative-time regex, in source order. -/
def unitAlternatives : List String :=
  ["second", "minute", "hour", "day", "week", "month"]

/-- Match one of the unit words as a prefix of `cs`, returning the word
and the remaining characters. -/
def matchUnitFrom : List String → List Char → Option (String × List Char)
  | [], _ => none
  | u :: us, cs =>
    if u.data.isPrefixOf cs then some (u, cs.drop u.data.length)
    else matchUnitFrom us cs

/-- The `ms` record of unit durations in milliseconds from the source. -/
def relMs (unit : String) : Int :=
  if unit = "second" then 1000
  else if unit = "minute" then 60 * 1000
  else if unit = "hour" then 3600 * 1000
  else if unit = "day" then 86400 * 1000
  else if unit = "week" then 7 * 86400 * 1000
  else if unit = "month" then 30 * 86400 * 1000
  else 0

/-- Matcher for `^(\d+)\s+(second|minute|hour|day|week|month)s?\s+ago$`,
returning the captured amount and unit word. -/
def matchRelative (cs : List Char) : Option (Nat × String) :=
  let digits := cs.takeWhile isDigitC
  let rest := cs.dropWhile isDigitC
  if digits = [] then none
  else if rest.takeWhile isRegexSpace = [] then none
  else
    match matchUnitFrom unitAlternatives (rest.dropWhile isRegexSpace) with
    | none => none
    | some (unit, rest2) =>
      let rest3 := if rest2.head? = some 's' then rest2.tail else rest2
      if rest3.takeWhile isRegexSpace = [] then none
      else if rest3.dropWhile isRegexSpace = "ago".data then
        some (digitsToNat digits, unit)
      else none

/-- `parseTimeInput` from `src/types/cloudtrail.ts`.  `now` is the injected
current instant (`new Date()`), `dateParse` the injected JS absolute
date parser (`new Date(input)`), both in epoch milliseconds; a thrown
`Error` is an `Except.error` carrying the message. -/
def parseTimeInput (now : Int) (dateParse : String → Option Int)
    (input : String) : Except String Int :=
  let trimmed := jsToLower (jsTrim input.data)
  if trimmed = "now".data then Except.ok now
  else
    match matchRelative trimmed with
    | some (amount, unit) => Except.ok (now - (amount : Int) * relMs unit)
    | none =>
      match dateParse input with
      | some t => Except.ok t
      | none =>
        Except.error ("Invalid time format: \"" ++ input
          ++ "\". Use ISO format (e.g. \"2025-01-01T00:00:00Z\") or relative (e.g. \"1 day ago\", \"2 hours ago\").")

/-! ### `src/handlers/lake.ts` — query polling and page-size clamping -/

def MAX_POLL_SECONDS : Nat := 300

def POLL_INTERVAL_MS : Nat := 2000

/-- The terminal-status test
`['FINISHED', 'FAILED', 'CANCELLED', 'TIMED_OUT'].includes(queryStatus)`. -/
def isTerminalStatus (s : String) : Bool :=
  ["FINISHED", "FAILED", "CANCELLED", "TIMED_OUT"].contains s

/-- `validateMaxResults(value, def, max)`, duplicated verbatim in
`src/handlers/lake.ts` and `src/handlers/events.ts`:
`Math.max(1, Math.min(max, value))` with a default for `undefined`. -/
def validateMaxResults (value : Option Int) (df mx : Int) : Int :=
  match value with
  | none => df
  | some v => max 1 (min mx v)

/-- The polling loop of `handleLakeQuery` (`while (elapsed < MAX_POLL_SECONDS
* 1000) { describe; if terminal break; sleep(POLL_INTERVAL_MS); elapsed +=
POLL_INTERVAL_MS }`).  `respond i` is the `DescribeQueryCommand` response
observed at the i-th iteration: the optional `QueryStatus` and the optional
`ErrorMessage`.  `st`/`err` carry the loop variables `queryStatus` /
`finalErrorMessage`; the result is the final `(queryStatus,
finalErrorMessage, elapsed)`, where `elapsed` equals the total milliseconds
of accumulated sleep. -/
def pollFrom (respond : Nat → Option String × Option String)
    (i elapsed : Nat) (st : String) (err : Option String) :
    String × Option String × Nat :=
  if elapsed < MAX_POLL_SECONDS * 1000 then
    if isTerminalStatus ((respond i).1.getD "UNKNOWN") then
      ((respond i).1.getD "UNKNOWN", (respond i).2, elapsed)
    else
      pollFrom respond (i + 1) (elapsed + POLL_INTERVAL_MS)
        ((respond i).1.getD "UNKNOWN") (respond i).2
  else (st, err, elapsed)
termination_by MAX_POLL_SECONDS * 1000 - elapsed
decreasing_by simp only [MAX_POLL_SECONDS, POLL_INTERVAL_MS] at *; omega

/-- The `waitForCompletion = true` path of `handleLakeQuery` after the query
has been started, from the polling loop onward.  `fetch queryId maxResults
nextToken` models the delegated `handleGetQueryResults(config, { queryId,
maxResults: 50, region })` call (an external, collaborator-backed fetch);
the source passes no `nextToken`, i.e. requests the first page. -/
def handleLakeQueryWait (fetch : String → Int → Option String → String)
    (respond : Nat → Option String × Option String)
    (region queryId : String) : String :=
  let r := pollFrom respond 0 0 "RUNNING" none
  if r.1 = "FINISHED" then fetch queryId 50 none
  else
    String.intercalate "\n"
      (["Query completed with status: " ++ r.1 ++ " (region: " ++ region ++ ")",
        "Query ID: " ++ queryId] ++
       (match r.2.1 with
        | some m => ["Error: " ++ m]
        | none => []))

/-! ### `src/handlers/events.ts` — `handleLookupEvents` -/

/-- JS truthiness of an optional string: `undefined` and `""` are falsy. -/
def truthy : Option String → Bool
  | none => false
  | some s => s ≠ ""

/-- Arguments of the `lookup_events` handler (`LookupEventsArgs`). -/
structure LookupEventsArgs where
  startTime : Option String
  endTime : Option String
  attributeKey : Option String
  attributeValue : Option String
  maxResults : Option Int
  nextToken : Option String
deriving DecidableEq, Repr

/-- The `LookupEventsCommandInput` the handler sends to the collaborator:
resolved start/end instants (epoch ms), clamped page size, the optional
lookup-attribute filter, and the pass-through continuation token. -/
structure LookupRequest where
  startTime : Int
  endTime : Int
  maxResults : Int
  lookupAttributes : Option (String × String)
  nextToken : Option String
deriving DecidableEq, Repr

/-- The error thrown by `handleLookupEvents` when a continuation token is
supplied without its original time range. -/
def paginationContextError : String :=
  "Both startTime and endTime are required when using pagination (nextToken). "
    ++ "Use the exact startTime and endTime from the queryParams in the previous response."

/-- `handleLookupEvents` from `src/handlers/events.ts`, up to the
construction of the `LookupEventsCommand` input (everything after the
`client.send` call only renders the collaborator's response).  The result
is the request sent, or the thrown error; `Except.error` means no
collaborator request is issued. -/
def handleLookupEvents (now : Int) (dateParse : String → Option Int)
    (args : LookupEventsArgs) : Except String LookupRequest :=
  if truthy args.nextToken && (!truthy args.startTime || !truthy args.endTime) then
    Except.error paginationContextError
  else
    match parseTimeInput now dateParse
        ((if truthy args.nextToken then args.startTime
          else some (args.startTime.getD "1 day ago")).getD "") with
    | Except.error e => Except.error e
    | Except.ok startDt =>
      match parseTimeInput now dateParse
          ((if truthy args.nextToken then args.endTime
            else some (args.endTime.getD "now")).getD "") with
      | Except.error e => Except.error e
      | Except.ok endDt =>
        Except.ok
          { startTime := startDt
            endTime := endDt
            maxResults := validateMaxResults args.maxResults 10 50
            lookupAttributes :=
              if truthy args.attributeKey && truthy args.attributeValue then
                some (args.attributeKey.getD "", args.attributeValue.getD "")
              else none
            nextToken := if truthy args.nextToken then args.nextToken else none }

/-! ### `src/events-tools.ts` — the `lookup_events` tool boundary -/

/-- The `maxResults` constraint of the zod `LookupEventsSchema`
(`z.number().int().min(1).max(50).optional()`): absent is fine, a present
value must lie in `[1, 50]`. -/
def lookupEventsSchemaMaxResultsOk : Option Int → Bool
  | none => true
  | some v => 1 ≤ v && v ≤ 50

/-- The `lookup_events` tool callback: `LookupEventsSchema.parse(args)`
rejects the invocation before `handleLookupEvents` runs when the schema is
violated.  Only the `maxResults` bound of the schema is modelled (the zod
library's own error text is abbreviated). -/
def lookupEventsTool (now : Int) (dateParse : String → Option Int)
    (args : LookupEventsArgs) : Except String LookupRequest :=
  if lookupEventsSchemaMaxResultsOk args.maxResults then
    handleLookupEvents now dateParse args
  else
    Except.error "lookup_events arguments rejected by LookupEventsSchema: maxResults must be an integer between 1 and 50"

/-- The `GetQueryResultsCommand` input built by `handleGetQueryResults`
(`{ QueryId, MaxQueryResults: validateMaxResults(args.maxResults, 50, 50),
...(args.nextToken ? { NextToken } : {}) }`). -/
def getQueryResultsInput (queryId : String) (maxResults : Option Int)
    (nextToken : Option String) : String × Int × Option String :=
  (queryId, validateMaxResults maxResults 50 50,
    if truthy nextToken then nextToken else none)

/-! ### Claims C3 and C4 (token budgeter) -/

/-- C3: with `bypass=false`, `checkTokenLimit` returns `allowed=false` iff the
measured token count exceeds `maxTokens`; in that case the error message
states the measured count, the limit, and the four remediation hints
(reduce page size via `maxResults`, narrow the time range, add more specific
filters, set the bypass flag); otherwise it returns `allowed=true` with the
measured count and no error. -/
theorem checkTokenLimit_exceeds_iff (calculateTokens : String → Nat)
    (text : String) (maxTokens : Int) :
    ((checkTokenLimit calculateTokens text maxTokens false).allowed = false
      ↔ (calculateTokens text : Int) > maxTokens)
    ∧ ((calculateTokens text : Int) > maxTokens →
        checkTokenLimit calculateTokens text maxTokens false =
          { allowed := false, tokens := calculateTokens text,
            error := some ("Token limit exceeded: result contains "
              ++ toString (calculateTokens text)
              ++ " tokens (limit: " ++ toString maxTokens ++ "). "
              ++ "To reduce output size, try: reduce maxResults, narrow the time range (startTime/endTime), "
              ++ "add more specific filters (attributeKey/attributeValue), add a LIMIT clause to SQL queries, "
              ++ "or set break_token_rule: true to bypass this check.") })
    ∧ (¬ (calculateTokens text : Int) > maxTokens →
        checkTokenLimit calculateTokens text maxTokens false =
          { allowed := true, tokens := calculateTokens text, error := none }) := by
  unfold checkTokenLimit
  by_cases h : (calculateTokens text : Int) > maxTokens
  · simp [h]
  · simp [h]

/-- Concrete instantiation of `checkTokenLimit_exceeds_iff`: a 4-character
text measured by length against a limit of 2 is rejected. -/
theorem checkTokenLimit_exceeds_iff_witness :
    (checkTokenLimit (fun s => s.length) "abcd" 2 false).allowed = false :=
  (checkTokenLimit_exceeds_iff (fun s => s.length) "abcd" 2).1.mpr (by decide)

/-- C4: with `bypass=true`, `checkTokenLimit` short-circuits to
`{allowed := true, tokens := 0}` and the result does not depend on the
token-counting function at all (the count is never computed). -/
theorem checkTokenLimit_bypass (calculateTokens other : String → Nat)
    (text : String) (maxTokens : Int) :
    checkTokenLimit calculateTokens text maxTokens true =
      { allowed := true, tokens := 0, error := none }
    ∧ checkTokenLimit calculateTokens text maxTokens true =
      checkTokenLimit other text maxTokens true := by
  exact ⟨rfl, rfl⟩

/-! ### Claims C1 and C2 (query lifecycle polling) -/

/-- Sleep-accounting invariant of the polling loop: starting from an
`elapsed` counter that is a multiple of the poll interval and within the
budget, the loop ends with an accumulated sleep that is still a multiple
of `POLL_INTERVAL_MS` and never exceeds `MAX_POLL_SECONDS * 1000`. -/
theorem pollFrom_sleep_invariant (respond : Nat → Option String × Option String) :
    ∀ fuel i elapsed st err, MAX_POLL_SECONDS * 1000 - elapsed ≤ fuel →
    elapsed ≤ MAX_POLL_SECONDS * 1000 → POLL_INTERVAL_MS ∣ elapsed →
    (pollFrom respond i elapsed st err).2.2 ≤ MAX_POLL_SECONDS * 1000 ∧
    POLL_INTERVAL_MS ∣ (pollFrom respond i elapsed st err).2.2 := by
  intro fuel
  induction fuel with
  | zero =>
    intro i elapsed st err hf h1 h2
    have hn : ¬ elapsed < MAX_POLL_SECONDS * 1000 := by
      simp only [MAX_POLL_SECONDS] at *
      omega
    rw [pollFrom]
    simp only [hn, if_false]
    exact ⟨h1, h2⟩
  | succ n ih =>
    intro i elapsed st err hf h1 h2
    rw [pollFrom]
    by_cases hlt : elapsed < MAX_POLL_SECONDS * 1000
    · simp only [hlt, if_true]
      by_cases hterm : isTerminalStatus ((respond i).1.getD "UNKNOWN")
      · simp only [hterm, if_true]
        exact ⟨le_of_lt hlt, h2⟩
      · simp only [hterm, if_false]
        refine ih (i + 1) (elapsed + POLL_INTERVAL_MS) _ _ ?_ ?_ ?_
        · simp only [MAX_POLL_SECONDS, POLL_INTERVAL_MS] at *; omega
        · simp only [MAX_POLL_SECONDS, POLL_INTERVAL_MS] at *; omega
        · exact dvd_add h2 (dvd_refl _)
    · simp only [hlt, if_false]
      exact ⟨h1, h2⟩

/-- C1: for every `handleLakeQuery` invocation with `waitForCompletion=true`,
the status-polling loop sleeps in fixed `POLL_INTERVAL_MS = 2000` ms steps
(the accumulated sleep is `2000 * k` for some `k ≤ 150`), accumulates at
most `MAX_POLL_SECONDS * 1000 = 300000` ms of sleep, and whenever the final
observed status is `FINISHED` the handler delegates to the results fetcher
(`handleGetQueryResults`) for the first page (`maxResults = 50`, no
continuation token). -/
theorem handleLakeQuery_polling_bounded (fetch : String → Int → Option String → String)
    (respond : Nat → Option String × Option String) (region queryId : String) :
    (∃ k, k ≤ 150 ∧
      (pollFrom respond 0 0 "RUNNING" none).2.2 = POLL_INTERVAL_MS * k)
    ∧ (pollFrom respond 0 0 "RUNNING" none).2.2 ≤ MAX_POLL_SECONDS * 1000
    ∧ ((pollFrom respond 0 0 "RUNNING" none).1 = "FINISHED" →
        handleLakeQueryWait fetch respond region queryId = fetch queryId 50 none) := by
  obtain ⟨h1, h2⟩ := pollFrom_sleep_invariant respond (MAX_POLL_SECONDS * 1000) 0 0
    "RUNNING" none (by omega) (by omega) (dvd_zero _)
  refine ⟨?_, h1, ?_⟩
  · obtain ⟨k, hk⟩ := h2
    refine ⟨k, ?_, hk⟩
    simp only [MAX_POLL_SECONDS, POLL_INTERVAL_MS] at h1 hk
    omega
  · intro hfin
    unfold handleLakeQueryWait
    simp [hfin]

/-- Concrete instantiation of `handleLakeQuery_polling_bounded`: a query
that is already `FINISHED` at the first status check is delegated to the
results fetcher. -/
theorem handleLakeQuery_polling_bounded_witness :
    handleLakeQueryWait (fun q _ t => "RESULTS " ++ q ++ (t.getD ""))
      (fun _ => (some "FINISHED", none)) "us-east-1" "qid" = "RESULTS qid" := by
  have hfin : (pollFrom (fun _ => (some "FINISHED", none)) 0 0 "RUNNING" none).1 = "FINISHED" := by
    rw [pollFrom]; decide
  have h := (handleLakeQuery_polling_bounded (fun q _ t => "RESULTS " ++ q ++ (t.getD ""))
    (fun _ => (some "FINISHED", none)) "us-east-1" "qid").2.2 hfin
  rw [h]
  decide

/-- C2: whenever polling ends in anything other than `FINISHED` — a
terminal `FAILED` / `CANCELLED` / `TIMED_OUT` status, or a non-terminal
status when the wait budget elapses — `handleLakeQuery` returns normally
(the embedding is a total function into `String`; no exception path exists
in this branch of the source) with a status text consisting of the query
id, the last observed status, and, when present, the error message
verbatim. -/
theorem handleLakeQuery_nonFinished_reports (fetch : String → Int → Option String → String)
    (respond : Nat → Option String × Option String) (region queryId : String)
    (h : (pollFrom respond 0 0 "RUNNING" none).1 ≠ "FINISHED") :
    handleLakeQueryWait fetch respond region queryId =
      String.intercalate "\n"
        (["Query completed with status: " ++ (pollFrom respond 0 0 "RUNNING" none).1
            ++ " (region: " ++ region ++ ")",
          "Query ID: " ++ queryId] ++
         (match (pollFrom respond 0 0 "RUNNING" none).2.1 with
          | some m => ["Error: " ++ m]
          | none => [])) := by
  unfold handleLakeQueryWait
  simp [h]

/-- Concrete instantiation of `handleLakeQuery_nonFinished_reports`: a
query that fails immediately with message `boom` yields the status text
with the id, the `FAILED` status and the verbatim error. -/
theorem handleLakeQuery_nonFinished_reports_witness :
    handleLakeQueryWait (fun _ _ _ => "unused") (fun _ => (some "FAILED", some "boom"))
      "us-east-1" "qid" =
      "Query completed with status: FAILED (region: us-east-1)\nQuery ID: qid\nError: boom" := by
  have h : (pollFrom (fun _ => (some "FAILED", some "boom")) 0 0 "RUNNING" none).1 ≠ "FINISHED" := by
    rw [pollFrom]; decide
  rw [handleLakeQuery_nonFinished_reports (fun _ _ _ => "unused")
    (fun _ => (some "FAILED", some "boom")) "us-east-1" "qid" h]
  rw [pollFrom]
  decide

/-! ### Decimal rendering: `Nat.repr` digit machinery (for claim C6) -/

def natDigitsAux (n : Nat) : List Char :=
  if n < 10 then [Nat.digitChar n]
  else natDigitsAux (n / 10) ++ [Nat.digitChar (n % 10)]
termination_by n
decreasing_by exact Nat.div_lt_self (by omega) (by omega)

/-- `Nat.digitChar` of a decimal digit has the code point `48 + m`. -/
theorem digitChar_toNat (m : Nat) (h : m < 10) : (Nat.digitChar m).toNat = 48 + m := by
  interval_cases m <;> decide

/-- `Nat.digitChar` of a decimal digit is in the regex class `\d`. -/
theorem digitChar_isDigitC (m : Nat) (h : m < 10) : isDigitC (Nat.digitChar m) = true := by
  interval_cases m <;> decide

/-- With sufficient fuel, `Nat.toDigitsCore` base 10 agrees with the
structural digit-list function `natDigitsAux`. -/
theorem toDigitsCore_eq_natDigitsAux :
    ∀ fuel n acc, n < fuel →
      Nat.toDigitsCore 10 fuel n acc = natDigitsAux n ++ acc := by
  intro fuel
  induction fuel with
  | zero => intro n acc h; omega
  | succ f ih =>
    intro n acc h
    by_cases h10 : n / 10 = 0
    · have hlt : n < 10 := by omega
      rw [natDigitsAux]
      simp only [Nat.toDigitsCore, h10, if_true, hlt, Nat.mod_eq_of_lt hlt,
        List.singleton_append]
    · have hlt : ¬ n < 10 := by
        intro hc
        exact h10 (Nat.div_eq_of_lt hc)
      have hn10 : n / 10 < f := by
        have hd : n / 10 < n := Nat.div_lt_self (by omega) (by omega)
        omega
      rw [natDigitsAux]
      simp only [Nat.toDigitsCore, h10, if_false, hlt]
      rw [ih (n / 10) _ hn10]
      simp [List.append_assoc]

/-- The characters of `Nat.repr n` are exactly `natDigitsAux n`. -/
theorem repr_data_eq (n : Nat) : (Nat.repr n).data = natDigitsAux n := by
  show (Nat.toDigits 10 n).asString.data = natDigitsAux n
  rw [Nat.toDigits]
  rw [toDigitsCore_eq_natDigitsAux (n + 1) n [] (by omega)]
  simp [List.asString]

/-- Every character of a decimal rendering is a digit. -/
theorem natDigitsAux_all_digits : ∀ n, ∀ c ∈ natDigitsAux n, isDigitC c = true := by
  intro n
  induction n using Nat.strong_induction_on with
  | _ n ih =>
    intro c hc
    rw [natDigitsAux] at hc
    by_cases h : n < 10
    · simp only [h, if_true, List.mem_singleton] at hc
      subst hc
      exact digitChar_isDigitC n h
    · simp only [h, if_false, List.mem_append, List.mem_singleton] at hc
      rcases hc with hc | hc
      · exact ih (n / 10) (Nat.div_lt_self (by omega) (by omega)) c hc
      · subst hc
        exact digitChar_isDigitC (n % 10) (Nat.mod_lt n (by omega))

/-- A decimal rendering is never empty. -/
theorem natDigitsAux_ne_nil (n : Nat) : natDigitsAux n ≠ [] := by
  rw [natDigitsAux]
  by_cases h : n < 10 <;> simp [h]

/-- Folding the `parseInt` accumulator over a decimal rendering of `n`
recovers `n` (shifted by the accumulator). -/
theorem foldl_natDigitsAux (n : Nat) : ∀ acc : Nat,
    List.foldl (fun acc c => acc * 10 + (c.toNat - 48)) acc (natDigitsAux n) =
      acc * 10 ^ (natDigitsAux n).length + n := by
  induction n using Nat.strong_induction_on with
  | _ n ih =>
    intro acc
    rw [natDigitsAux]
    by_cases h : n < 10
    · simp only [h, if_true, List.foldl_cons, List.foldl_nil, List.length_singleton]
      rw [digitChar_toNat n h]
      omega
    · simp only [h, if_false, List.foldl_append, List.foldl_cons, List.foldl_nil,
        List.length_append, List.length_singleton]
      rw [ih (n / 10) (Nat.div_lt_self (by omega) (by omega)) acc]
      rw [digitChar_toNat (n % 10) (Nat.mod_lt n (by omega))]
      have hmod : n % 10 + 10 * (n / 10) = n := Nat.mod_add_div n 10
      have hpow : 10 ^ ((natDigitsAux (n / 10)).length + 1) =
          10 ^ (natDigitsAux (n / 10)).length * 10 := by ring
      rw [hpow]
      have hassoc : acc * (10 ^ (natDigitsAux (n / 10)).length * 10) =
          acc * 10 ^ (natDigitsAux (n / 10)).length * 10 := by ring
      rw [hassoc]
      generalize acc * 10 ^ (natDigitsAux (n / 10)).length = A
      omega

/-- `parseInt` (base 10) is a left inverse of `Nat.repr`. -/
theorem digitsToNat_repr (n : Nat) : digitsToNat (Nat.repr n).data = n := by
  rw [repr_data_eq]
  unfold digitsToNat
  rw [foldl_natDigitsAux n 0]
  omega

/-- `Nat.repr n` is a nonempty string of decimal digits. -/
theorem repr_shape (n : Nat) : ∃ d0 ds, (Nat.repr n).data = d0 :: ds ∧
    (∀ c ∈ (Nat.repr n).data, isDigitC c = true) := by
  rw [repr_data_eq]
  rcases hne : natDigitsAux n with _ | ⟨d0, ds⟩
  · exact absurd hne (natDigitsAux_ne_nil n)
  · exact ⟨d0, ds, rfl, by rw [← hne]; exact natDigitsAux_all_digits n⟩

/-- The classes `\d` and `\s` are disjoint. -/
theorem isDigitC_not_space {c : Char} (h : isDigitC c = true) : isRegexSpace c = false := by
  simp only [isDigitC, Bool.and_eq_true, decide_eq_true_eq] at h
  simp only [isRegexSpace, Bool.or_eq_false_iff, decide_eq_false_iff_not]
  omega

/-- Case folding fixes digits. -/
theorem isDigitC_lower {c : Char} (h : isDigitC c = true) : jsCharToLower c = c := by
  simp only [isDigitC, Bool.and_eq_true, decide_eq_true_eq] at h
  unfold jsCharToLower
  rw [if_neg]
  simp only [Bool.and_eq_true, decide_eq_true_eq, not_and]
  omega

/-- A map that fixes every element of a list fixes the list. -/
theorem map_eq_self_of_id {f : Char → Char} : ∀ l : List Char,
    (∀ c ∈ l, f c = c) → l.map f = l := by
  intro l
  induction l with
  | nil => intro _; rfl
  | cons a t ih =>
    intro h
    simp only [List.map_cons]
    rw [h a (by simp), ih (fun c hc => h c (by simp [hc]))]

/-- A digit prefix followed by a non-digit is exactly what
`takeWhile isDigitC` captures. -/
theorem takeWhile_digits (digits : List Char) (b : Char) (r : List Char)
    (hd : ∀ c ∈ digits, isDigitC c = true) (hb : isDigitC b = false) :
    (digits ++ b :: r).takeWhile isDigitC = digits ∧
    (digits ++ b :: r).dropWhile isDigitC = b :: r := by
  induction digits with
  | nil =>
    simp [List.takeWhile_cons, List.dropWhile_cons, hb]
  | cons c t ih =>
    have hc : isDigitC c = true := hd c (by simp)
    obtain ⟨ih1, ih2⟩ := ih (fun x hx => hd x (by simp [hx]))
    simp only [List.cons_append, List.takeWhile_cons, List.dropWhile_cons, hc,
      if_true, ih1, ih2]
    simp

/-- The part of the relative-time regex after the digit capture:
`\s+(unit)s?\s+ago$`.  Proof-side decomposition of `matchRelative`. -/
def matchRelTail (rest : List Char) : Option String :=
  if rest.takeWhile isRegexSpace = [] then none
  else
    match matchUnitFrom unitAlternatives (rest.dropWhile isRegexSpace) with
    | none => none
    | some (unit, rest2) =>
      let rest3 := if rest2.head? = some 's' then rest2.tail else rest2
      if rest3.takeWhile isRegexSpace = [] then none
      else if rest3.dropWhile isRegexSpace = "ago".data then some unit
      else none

/-- `matchRelative` factors through the digit capture and `matchRelTail`. -/
theorem matchRelative_split (cs : List Char) :
    matchRelative cs =
      if cs.takeWhile isDigitC = [] then none
      else (matchRelTail (cs.dropWhile isDigitC)).map
        (fun u => (digitsToNat (cs.takeWhile isDigitC), u)) := by
  simp only [matchRelative, matchRelTail]
  by_cases h1 : cs.takeWhile isDigitC = []
  · simp [h1]
  · simp only [h1, if_false]
    by_cases h2 : (cs.dropWhile isDigitC).takeWhile isRegexSpace = []
    · simp [h2]
    · simp only [h2, if_false]
      rcases h3 : matchUnitFrom unitAlternatives ((cs.dropWhile isDigitC).dropWhile isRegexSpace) with _ | ⟨u, rest2⟩
      · simp
      · simp only []
        by_cases h4 : (if rest2.head? = some 's' then rest2.tail else rest2).takeWhile isRegexSpace = []
        · simp [h4]
        · simp only [h4, if_false]
          by_cases h5 : (if rest2.head? = some 's' then rest2.tail else rest2).dropWhile isRegexSpace = "ago".data
          · simp [h5]
          · simp [h5]

/-- On an input that is a nonempty digit list followed by a non-digit
character, `matchRelative` captures exactly those digits. -/
theorem matchRelative_digits_tail (digits : List Char) (b : Char) (T : List Char)
    (hne : digits ≠ []) (hd : ∀ c ∈ digits, isDigitC c = true)
    (hb : isDigitC b = false) :
    matchRelative (digits ++ b :: T) =
      (matchRelTail (b :: T)).map (fun u => (digitsToNat digits, u)) := by
  obtain ⟨h1, h2⟩ := takeWhile_digits digits b T hd hb
  rw [matchRelative_split, h1, h2, if_neg hne]

/-- `trim` fixes a list with no leading or trailing whitespace. -/
theorem jsTrim_of_ends (cs : List Char)
    (h1 : cs.dropWhile isRegexSpace = cs)
    (h2 : cs.reverse.dropWhile isRegexSpace = cs.reverse) :
    jsTrim cs = cs := by
  unfold jsTrim
  rw [h1, h2, List.reverse_reverse]

/-- Lower-casing distributes over a digit prefix. -/
theorem jsToLower_digits_append (digits L : List Char)
    (hd : ∀ c ∈ digits, isDigitC c = true) :
    jsToLower (digits ++ L) = digits ++ jsToLower L := by
  unfold jsToLower
  rw [List.map_append]
  rw [map_eq_self_of_id digits (fun c hc => isDigitC_lower (hd c hc))]

/-- A string starting with a digit is not `"now"`. -/
theorem digits_append_ne_now (d0 : Char) (tl : List Char)
    (hd0 : isDigitC d0 = true) : ¬ (d0 :: tl = "now".data) := by
  intro h
  rw [show "now".data = ['n', 'o', 'w'] from rfl] at h
  simp only [List.cons.injEq] at h
  rw [h.1] at hd0
  exact absurd hd0 (by decide)

/-- Master lemma for the relative-time forms: on `"<n>" ++ tail` where
`tail` starts with a space, ends in a non-space, is already lower case and
matches the post-digit part of the regex with unit `u`, `parseTimeInput`
returns `now` minus `n` times the unit duration. -/
theorem parseTimeInput_repr_prefix (now : Int) (dp : String → Option Int) (n : Nat)
    (s : String) (T : List Char) (c : Char) (M : List Char) (u : String)
    (hs : s.data = (Nat.repr n).data ++ (' ' :: T))
    (hrev : (' ' :: T).reverse = c :: M) (hc : isRegexSpace c = false)
    (hlower : jsToLower (' ' :: T) = ' ' :: T)
    (hmt : matchRelTail (' ' :: T) = some u) :
    parseTimeInput now dp s = Except.ok (now - (n : Int) * relMs u) := by
  obtain ⟨d0, ds, hd, hall⟩ := repr_shape n
  unfold parseTimeInput
  rw [hs]
  have hd0 : isDigitC d0 = true := hall d0 (by rw [hd]; simp)
  have h1 : ((Nat.repr n).data ++ (' ' :: T)).dropWhile isRegexSpace =
      (Nat.repr n).data ++ (' ' :: T) := by
    rw [hd, List.cons_append, List.dropWhile_cons, isDigitC_not_space hd0]
    simp
  have h2 : ((Nat.repr n).data ++ (' ' :: T)).reverse.dropWhile isRegexSpace =
      ((Nat.repr n).data ++ (' ' :: T)).reverse := by
    rw [List.reverse_append, hrev, List.cons_append, List.dropWhile_cons, hc]
    simp
  rw [jsTrim_of_ends _ h1 h2]
  rw [jsToLower_digits_append _ _ hall, hlower]
  have hne : ¬ ((Nat.repr n).data ++ (' ' :: T) = "now".data) := by
    rw [hd, List.cons_append]
    exact digits_append_ne_now d0 (ds ++ (' ' :: T)) hd0
  rw [if_neg hne]
  rw [matchRelative_digits_tail ((Nat.repr n).data) ' ' T
    (by rw [hd]; simp) hall (by decide)]
  rw [hmt, Option.map_some']
  rw [digitsToNat_repr n]

/-- C6: for every natural number `n` (rendered in decimal) and every unit
among second/minute/hour/day/week/month, singular or plural, the time
parser applied to `"<n> <unit> ago"` returns exactly `now` minus
`n * relMs unit`, with second=1000ms, minute=60s, hour=3600s, day=86400s,
week=7*86400s, month=30*86400s. -/
theorem parseTimeInput_relative (now : Int) (dp : String → Option Int)
    (n : Nat) (unit : String) (hu : unit ∈ unitAlternatives) (plural : Bool) :
    parseTimeInput now dp
      (Nat.repr n ++ " " ++ unit ++ (if plural then "s" else "") ++ " ago") =
      Except.ok (now - (n : Int) * relMs unit) := by
  simp only [unitAlternatives, List.mem_cons, List.not_mem_nil, or_false] at hu
  rcases hu with rfl | rfl | rfl | rfl | rfl | rfl <;> cases plural
  · exact parseTimeInput_repr_prefix now dp n _ ("second ago".data) _ _ "second"
      (by simp [String.data_append, List.append_assoc])
      rfl (by decide) (by decide) (by decide)
  · exact parseTimeInput_repr_prefix now dp n _ ("seconds ago".data) _ _ "second"
      (by simp [String.data_append, List.append_assoc])
      rfl (by decide) (by decide) (by decide)
  · exact parseTimeInput_repr_prefix now dp n _ ("minute ago".data) _ _ "minute"
      (by simp [String.data_append, List.append_assoc])
      rfl (by decide) (by decide) (by decide)
  · exact parseTimeInput_repr_prefix now dp n _ ("minutes ago".data) _ _ "minute"
      (by simp [String.data_append, List.append_assoc])
      rfl (by decide) (by decide) (by decide)
  · exact parseTimeInput_repr_prefix now dp n _ ("hour ago".data) _ _ "hour"
      (by simp [String.data_append, List.append_assoc])
      rfl (by decide) (by decide) (by decide)
  · exact parseTimeInput_repr_prefix now dp n _ ("hours ago".data) _ _ "hour"
      (by simp [String.data_append, List.append_assoc])
      rfl (by decide) (by decide) (by decide)
  · exact parseTimeInput_repr_prefix now dp n _ ("day ago".data) _ _ "day"
      (by simp [String.data_append, List.append_assoc])
      rfl (by decide) (by decide) (by decide)
  · exact parseTimeInput_repr_prefix now dp n _ ("days ago".data) _ _ "day"
      (by simp [String.data_append, List.append_assoc])
      rfl (by decide) (by decide) (by decide)
  · exact parseTimeInput_repr_prefix now dp n _ ("week ago".data) _ _ "week"
      (by simp [String.data_append, List.append_assoc])
      rfl (by decide) (by decide) (by decide)
  · exact parseTimeInput_repr_prefix now dp n _ ("weeks ago".data) _ _ "week"
      (by simp [String.data_append, List.append_assoc])
      rfl (by decide) (by decide) (by decide)
  · exact parseTimeInput_repr_prefix now dp n _ ("month ago".data) _ _ "month"
      (by simp [String.data_append, List.append_assoc])
      rfl (by decide) (by decide) (by decide)
  · exact parseTimeInput_repr_prefix now dp n _ ("months ago".data) _ _ "month"
      (by simp [String.data_append, List.append_assoc])
      rfl (by decide) (by decide) (by decide)

/-- Concrete instantiation of `parseTimeInput_relative`:
`"2 hours ago"` is `now` minus 7200000 ms. -/
theorem parseTimeInput_relative_witness :
    parseTimeInput 1000000000 (fun _ => none)
      (Nat.repr 2 ++ " " ++ "hour" ++ (if true then "s" else "") ++ " ago") =
      Except.ok (1000000000 - (2 : Int) * relMs "hour") :=
  parseTimeInput_relative 1000000000 (fun _ => none) 2 "hour" (by decide) true

/-- C7: the time parser is pure and deterministic given a fixed injected
"now": its result depends on the ambient world only through the injected
current time and the value of the absolute date parser on the given input,
so two evaluations with the same injected current time (and an absolute
parser agreeing on the input) yield the same result. -/
theorem parseTimeInput_deterministic (now : Int) (dp1 dp2 : String → Option Int)
    (input : String) (h : dp1 input = dp2 input) :
    parseTimeInput now dp1 input = parseTimeInput now dp2 input := by
  unfold parseTimeInput
  rw [h]

/-- Concrete instantiation of `parseTimeInput_deterministic` with two
different absolute-parser implementations agreeing on the input. -/
theorem parseTimeInput_deterministic_witness :
    parseTimeInput 0 (fun s => some (s.length : Int)) "hello" =
      parseTimeInput 0 (fun _ => some 5) "hello" :=
  parseTimeInput_deterministic 0 (fun s => some (s.length : Int)) (fun _ => some 5)
    "hello" (by decide)

/-- C9: on an input that is not `"now"`, does not match the relative
form, and is not parseable as an absolute date, the time parser fails with
an error message naming the offending input verbatim and listing the
accepted ISO and relative forms; `handleLookupEvents` then fails with that
same error, producing no collaborator request (`Except.error` carries no
`LookupRequest`). -/
theorem parseTimeInput_invalid_format (now : Int) (dp : String → Option Int) (input : String)
    (hnow : jsToLower (jsTrim input.data) ≠ "now".data)
    (hrel : matchRelative (jsToLower (jsTrim input.data)) = none)
    (habs : dp input = none) :
    parseTimeInput now dp input =
      Except.error ("Invalid time format: \"" ++ input
        ++ "\". Use ISO format (e.g. \"2025-01-01T00:00:00Z\") or relative (e.g. \"1 day ago\", \"2 hours ago\").")
    ∧ (∀ args : LookupEventsArgs, args.nextToken = none → args.startTime = some input →
        handleLookupEvents now dp args =
          Except.error ("Invalid time format: \"" ++ input
            ++ "\". Use ISO format (e.g. \"2025-01-01T00:00:00Z\") or relative (e.g. \"1 day ago\", \"2 hours ago\").")) := by
  have hmain : parseTimeInput now dp input =
      Except.error ("Invalid time format: \"" ++ input
        ++ "\". Use ISO format (e.g. \"2025-01-01T00:00:00Z\") or relative (e.g. \"1 day ago\", \"2 hours ago\").") := by
    unfold parseTimeInput
    rw [if_neg hnow, hrel, habs]
  refine ⟨hmain, ?_⟩
  intro args h1 h2
  unfold handleLookupEvents
  rw [h1, h2]
  simp [truthy, hmain]

/-- Concrete instantiation of `parseTimeInput_invalid_format` at the
input `"not a time"`. -/
theorem parseTimeInput_invalid_format_witness :
    parseTimeInput 0 (fun _ => none) "not a time" =
      Except.error ("Invalid time format: \"not a time\". Use ISO format (e.g. \"2025-01-01T00:00:00Z\") or relative (e.g. \"1 day ago\", \"2 hours ago\").") :=
  (parseTimeInput_invalid_format 0 (fun _ => none) "not a time"
    (by decide) (by decide) rfl).1

/-- C8: supplying a continuation token (a nonempty `nextToken`) while
omitting `startTime` or `endTime` makes `handleLookupEvents` fail with the
missing-pagination-context validation error before any collaborator
request is built; with no `nextToken`, omitting both times is not an error:
the defaults `"1 day ago"` and `"now"` are applied, yielding a request
over `[now - 86400000, now]`. -/
theorem handleLookupEvents_pagination_context (now : Int) (dp : String → Option Int)
    (args : LookupEventsArgs) :
    (∀ tok, args.nextToken = some tok → tok ≠ "" →
      (args.startTime = none ∨ args.endTime = none) →
      handleLookupEvents now dp args = Except.error paginationContextError)
    ∧ (args.nextToken = none → args.startTime = none → args.endTime = none →
      handleLookupEvents now dp args =
        Except.ok
          { startTime := now - 86400000
            endTime := now
            maxResults := validateMaxResults args.maxResults 10 50
            lookupAttributes :=
              if truthy args.attributeKey && truthy args.attributeValue then
                some (args.attributeKey.getD "", args.attributeValue.getD "")
              else none
            nextToken := none }) := by
  constructor
  · intro tok htok hne hmiss
    have hcond : (truthy args.nextToken && (!truthy args.startTime || !truthy args.endTime)) = true := by
      rcases hmiss with h | h <;> simp [htok, h, truthy, hne]
    unfold handleLookupEvents
    rw [if_pos hcond]
  · intro h1 h2 h3
    have hstart : parseTimeInput now dp "1 day ago" = Except.ok (now - 86400000) := rfl
    have hend : parseTimeInput now dp "now" = Except.ok now := rfl
    unfold handleLookupEvents
    rw [h1, h2, h3]
    simp [truthy, hstart, hend]

/-- Concrete instantiation of `handleLookupEvents_pagination_context`:
a token with a missing `startTime` is rejected. -/
theorem handleLookupEvents_pagination_context_witness :
    handleLookupEvents 0 (fun _ => none)
      { startTime := none, endTime := some "now", attributeKey := none,
        attributeValue := none, maxResults := none, nextToken := some "tok" } =
      Except.error paginationContextError :=
  (handleLookupEvents_pagination_context 0 (fun _ => none)
    { startTime := none, endTime := some "now", attributeKey := none,
      attributeValue := none, maxResults := none, nextToken := some "tok" }).1
    "tok" rfl (by decide) (Or.inl rfl)

/-- C10 counterexample: `attributeKey` and `attributeValue` are both
provided (`some "EventId"` and `some ""`), yet the built request contains
no lookup-attribute filter, because the source guards with JS truthiness
(`args.attributeKey && args.attributeValue`) and the empty string is
falsy.  This contradicts the claim that the filter is included if and only
if both are provided. -/
theorem lookupEvents_attribute_filter_dropped_for_empty_value :
    handleLookupEvents 0 (fun _ => none)
      { startTime := none, endTime := none, attributeKey := some "EventId",
        attributeValue := some "", maxResults := none, nextToken := none } =
      Except.ok
        { startTime := -86400000
          endTime := 0
          maxResults := 10
          lookupAttributes := none
          nextToken := none } := by
  rfl

/-- C10 (amended): a lookup-attribute filter is included in the
collaborator request if and only if both `attributeKey` and
`attributeValue` are provided and non-empty (JS-truthy); supplying only
one of the two (or an empty value) is not an error — the handler's
success/failure is independent of the attribute arguments — and silently
results in an unfiltered lookup. -/
theorem handleLookupEvents_filter_truthy (now : Int) (dp : String → Option Int)
    (args : LookupEventsArgs) :
    (∀ req, handleLookupEvents now dp args = Except.ok req →
      req.lookupAttributes =
        (if truthy args.attributeKey && truthy args.attributeValue then
          some (args.attributeKey.getD "", args.attributeValue.getD "")
        else none)
      ∧ (req.lookupAttributes ≠ none ↔
          (truthy args.attributeKey = true ∧ truthy args.attributeValue = true)))
    ∧ (handleLookupEvents now dp args).isOk =
      (handleLookupEvents now dp
        { args with attributeKey := none, attributeValue := none }).isOk := by
  constructor
  · intro req h
    unfold handleLookupEvents at h
    by_cases h1 : (truthy args.nextToken && (!truthy args.startTime || !truthy args.endTime)) = true
    · rw [if_pos h1] at h
      exact absurd h (by simp)
    · rw [if_neg h1] at h
      split at h
      · exact absurd h (by simp)
      · split at h
        · exact absurd h (by simp)
        · injection h with h
          subst h
          refine ⟨?_, ?_⟩ <;>
            (by_cases hk : truthy args.attributeKey <;>
              by_cases hv : truthy args.attributeValue <;> simp [hk, hv])
  · unfold handleLookupEvents
    by_cases h1 : (truthy args.nextToken && (!truthy args.startTime || !truthy args.endTime)) = true
    · simp only [h1, if_true]
    · simp only [h1, if_false]
      rcases hp1 : parseTimeInput now dp
          ((if truthy args.nextToken then args.startTime
            else some (args.startTime.getD "1 day ago")).getD "") with e1 | s1 <;>
        rcases hp2 : parseTimeInput now dp
            ((if truthy args.nextToken then args.endTime
              else some (args.endTime.getD "now")).getD "") with e2 | s2 <;>
      all_goals simp [hp1, hp2, Except.isOk, Except.toBool]

/-- Concrete instantiation of `handleLookupEvents_filter_truthy`: with
both attributes non-empty the built request carries the filter. -/
theorem handleLookupEvents_filter_truthy_witness :
    (some ("Username", "alice") : Option (String × String)) ≠ none :=
  (((handleLookupEvents_filter_truthy 0 (fun _ => none)
    { startTime := none, endTime := none, attributeKey := some "Username",
      attributeValue := some "alice", maxResults := none, nextToken := none }).1
    { startTime := -86400000
      endTime := 0
      maxResults := 10
      lookupAttributes := some ("Username", "alice")
      nextToken := none } rfl).2).mpr (by decide)

/-- C5 counterexample: a `lookup_events` invocation requesting
`maxResults = 51` is rejected by the declared zod schema bounds before the
handler (and its clamping) ever runs — the request is not silently
clamped, contradicting "never rejected with an error". -/
theorem lookupEvents_maxResults_out_of_range_rejected :
    lookupEventsTool 0 (fun _ => none)
      { startTime := none, endTime := none, attributeKey := none,
        attributeValue := none, maxResults := some 51, nextToken := none } =
      Except.error "lookup_events arguments rejected by LookupEventsSchema: maxResults must be an integer between 1 and 50" := by
  rfl

/-- C5 (amended): a caller-requested `maxResults` outside `[1, 50]` that
reaches a handler is silently clamped to `max 1 (min 50 requested)` — both
in the `handleLookupEvents` request and in the `GetQueryResultsCommand`
input of `handleGetQueryResults` — but the `lookup_events` tool schema
declares the bounds `[1, 50]` and rejects out-of-range values before the
handler is invoked. -/
theorem maxResults_out_of_range_clamped_at_handlers (now : Int)
    (dp : String → Option Int) (args : LookupEventsArgs) (v : Int)
    (queryId : String) (tok : Option String)
    (hv : v < 1 ∨ 50 < v) (hm : args.maxResults = some v) :
    (∀ req, handleLookupEvents now dp args = Except.ok req →
      req.maxResults = max 1 (min 50 v))
    ∧ (getQueryResultsInput queryId (some v) tok).2.1 = max 1 (min 50 v)
    ∧ lookupEventsSchemaMaxResultsOk (some v) = false := by
  refine ⟨?_, ?_, ?_⟩
  · intro req h
    unfold handleLookupEvents at h
    by_cases h1 : (truthy args.nextToken && (!truthy args.startTime || !truthy args.endTime)) = true
    · rw [if_pos h1] at h
      exact absurd h (by simp)
    · rw [if_neg h1] at h
      split at h
      · exact absurd h (by simp)
      · split at h
        · exact absurd h (by simp)
        · injection h with h
          subst h
          simp [validateMaxResults, hm]
  · simp [getQueryResultsInput, validateMaxResults]
  · simp only [lookupEventsSchemaMaxResultsOk]
    rcases hv with h | h <;> simp <;> omega

/-- Concrete instantiation of `maxResults_out_of_range_clamped_at_handlers`:
a requested page size of 51 is used as 50. -/
theorem maxResults_out_of_range_clamped_at_handlers_witness :
    (getQueryResultsInput "qid" (some 51) none).2.1 = 50 := by
  have h := (maxResults_out_of_range_clamped_at_handlers 0 (fun _ => none)
    { startTime := none, endTime := none, attributeKey := none,
      attributeValue := none, maxResults := some 51, nextToken := none }
    51 "qid" none (Or.inr (by decide)) rfl).2.1
  rw [h]
  decide
